import Mathlib

/-!
Shallow embedding of `src/plugins/map_plugin/src/map_data.rs` from the
terrain_renderer repository. Rust floating-point fields (`f32`, `f64`) are
modelled as real numbers, machine integers (`u64`, `u32`, `usize`) as `Nat`,
and `Vec<T>` as `List T`. `f32::powf` is modelled by `Real.rpow`; note that
in this model a division by zero yields `0` (Lean's convention), where IEEE
arithmetic would yield NaN or an infinity — the theorems that touch such a
division point this out in their statements' doc comments.

The companion modules `map_generation.rs` (`MapShape`) and `map_pipeline.rs`
(`MapMaterial`) are not part of the visible source; the definitions below
whose doc comments start with `Modelled from the spec:` reconstruct them
from the specification's component design.
-/

/-- RGBA color, standing in for `bevy::render::color::Color` (an external
engine type; the spec replaces it by a plain structured record of floats). -/
structure Color where
  r : ℝ
  g : ℝ
  b : ℝ
  a : ℝ

/-- `Color::BLUE` of the engine crate, as plain RGBA. -/
def Color.BLUE : Color := ⟨0.0, 0.0, 1.0, 1.0⟩

/-- `Color::GREEN` of the engine crate, as plain RGBA. -/
def Color.GREEN : Color := ⟨0.0, 1.0, 0.0, 1.0⟩

/-- `Color::DARK_GREEN` of the engine crate, as plain RGBA. -/
def Color.DARK_GREEN : Color := ⟨0.0, 0.5, 0.0, 1.0⟩

/-- `Color::GRAY` of the engine crate, as plain RGBA. -/
def Color.GRAY : Color := ⟨0.5, 0.5, 0.5, 1.0⟩

/-- `Color::WHITE` of the engine crate, as plain RGBA. -/
def Color.WHITE : Color := ⟨1.0, 1.0, 1.0, 1.0⟩

/-- `NoiseData`: parameters for the noise map generation
(map_data.rs, lines 11-21). -/
structure NoiseData where
  seed : Nat
  scale : ℝ
  octaves : Nat
  persistence : ℝ
  lacunarity : ℝ

/-- `impl Default for NoiseData` (map_data.rs, lines 23-33). -/
def NoiseData.default : NoiseData :=
  { seed := 0
    scale := 40.0
    octaves := 4
    persistence := 0.5
    lacunarity := 3.0 }

/-- `HeightCurve`: parameters for the height adjustment of the map
(map_data.rs, lines 37-43). -/
structure HeightCurve where
  water_level : ℝ
  slope : ℝ

/-- `impl Default for HeightCurve` (map_data.rs, lines 45-52). -/
def HeightCurve.default : HeightCurve :=
  { water_level := 0.25
    slope := 1.5 }

/-- `HeightCurve::evaluate` (map_data.rs, lines 55-67):
`if input < self.water_level { 0.0 } else { f32::powf((input - self.water_level) / (1.0 - self.water_level), self.slope) }`. -/
noncomputable def HeightCurve.evaluate (hc : HeightCurve) (input : ℝ) : ℝ :=
  if input < hc.water_level then 0
  else ((input - hc.water_level) / (1 - hc.water_level)) ^ hc.slope

/-- `MaterialData`: parameters for the map material
(map_data.rs, lines 71-78). A plain struct with public fields; the source
declares no constructor and no validation of the field lengths. -/
structure MaterialData where
  layer_colors : List Color
  layer_heights : List ℝ
  blend_values : List ℝ

/-- `impl Default for MaterialData` (map_data.rs, lines 80-95). -/
def MaterialData.default : MaterialData :=
  { layer_colors := [Color.BLUE, Color.GREEN, Color.DARK_GREEN, Color.GRAY, Color.WHITE]
    layer_heights := [0.2, 0.35, 0.5, 0.8]
    blend_values := [0.05, 0.05, 0.1, 0.15] }

/-- The layer-length invariant stated by the specification (section 3,
MaterialLayers): the number of height thresholds is one fewer than the
number of colors. Written additively to avoid truncated `Nat` subtraction. -/
def MaterialData.layersValid (m : MaterialData) : Prop :=
  m.layer_heights.length + 1 = m.layer_colors.length

instance (m : MaterialData) : Decidable m.layersValid := by
  unfold MaterialData.layersValid
  infer_instance

/-- A `MaterialData` value with mismatched layer arrays: one color but two
height thresholds. The source's struct-literal construction accepts it. -/
def badMaterialData : MaterialData :=
  { layer_colors := [Color.BLUE]
    layer_heights := [0.2, 0.35]
    blend_values := [] }

/-- `MapData`: all parameters of a map (map_data.rs, lines 98-113). -/
structure MapData where
  wireframe : Bool
  map_height : ℝ
  level_of_detail : Nat
  noise_data : NoiseData
  height_curve : HeightCurve
  material_data : MaterialData

/-- `impl Default for MapData` (map_data.rs, lines 115-126). -/
def MapData.default : MapData :=
  { wireframe := false
    map_height := 10.0
    level_of_detail := 0
    noise_data := NoiseData.default
    height_curve := HeightCurve.default
    material_data := MaterialData.default }

/-- `MapData::new` (map_data.rs, lines 128-131): `Self::default()`. -/
def MapData.new : MapData := MapData.default

/-- Modelled from the spec: the base 2D noise function of section 4.1 is not
under `src/` (only the parameter schema that drives it is). The spec fixes
only that it is a deterministic function of `(seed, x, z)` with bounded
range; a sine of a seed-perturbed linear form satisfies that. -/
noncomputable def baseNoise (seed : Nat) (x z : ℝ) : ℝ :=
  Real.sin (((seed : ℝ) + 1) * x + ((seed : ℝ) + 2) * z)

/-- Modelled from the spec: fractal noise sampling of section 4.1 — for each
octave, frequency `lacunarity^octave` and amplitude `persistence^octave`,
accumulating `amplitude * base_sample` and the max possible sum, then
normalizing and rescaling to `[0,1]`. -/
noncomputable def NoiseData.sample (n : NoiseData) (x z : ℝ) : ℝ :=
  let acc := (List.range n.octaves).foldl
    (fun acc oct =>
      (acc.1 + n.persistence ^ oct *
        baseNoise n.seed (x / n.scale * n.lacunarity ^ oct) (z / n.scale * n.lacunarity ^ oct),
       acc.2 + n.persistence ^ oct))
    ((0 : ℝ), (0 : ℝ))
  (max (-1) (min 1 (acc.1 / acc.2)) + 1) / 2

/-- Modelled from the spec: the heightfield sampler of section 4.3 —
`height_curve.evaluate(noise_field.sample(x,z))` scaled by `map_height`. -/
noncomputable def MapData.elevation (d : MapData) (x z : ℝ) : ℝ :=
  d.map_height * d.height_curve.evaluate (d.noise_data.sample x z)

/-- `GeneratedMesh` of the spec's data model: vertex positions, vertex
normals and triangle indices (`Mesh`, the engine type `MapShape` converts
into). -/
structure Mesh where
  vertices : List (ℝ × ℝ × ℝ)
  normals : List (ℝ × ℝ × ℝ)
  indices : List Nat

/-- Modelled from the spec: the fixed base resolution of the square grid of
section 4.4; 241 makes `(size - 1) = 240` divisible by every step derived
from `level_of_detail` in 0-6. -/
def meshSize : Nat := 241

/-- Modelled from the spec: the mesh-simplification step derived from
`level_of_detail` (section 4.4): LOD 0 is the finest grid, each increment
coarsens the grid step. -/
def lodStep (lod : Nat) : Nat := if lod = 0 then 1 else 2 * lod

/-- Modelled from the spec: `MapShape::new` composed with its `Into<Mesh>`
conversion (`map_generation.rs`, not under `src/`): triangulate a grid of
the heightfield sampler at the LOD-derived stride (section 4.4), with
finite-difference normals and two triangles per grid cell. -/
noncomputable def MapShape.new (d : MapData) : Mesh :=
  let step := lodStep d.level_of_detail
  let count := (meshSize - 1) / step + 1
  let verts := (List.range count).flatMap (fun zi =>
    (List.range count).map (fun xi =>
      (((xi * step : Nat) : ℝ), d.elevation ((xi * step : Nat) : ℝ) ((zi * step : Nat) : ℝ),
       ((zi * step : Nat) : ℝ))))
  let norms := (List.range count).flatMap (fun zi =>
    (List.range count).map (fun xi =>
      let x : ℝ := ((xi * step : Nat) : ℝ)
      let z : ℝ := ((zi * step : Nat) : ℝ)
      let s : ℝ := ((step : Nat) : ℝ)
      (d.elevation (x - s) z - d.elevation (x + s) z, 2 * s,
       d.elevation x (z - s) - d.elevation x (z + s))))
  let tris := (List.range (count - 1)).flatMap (fun zi =>
    (List.range (count - 1)).flatMap (fun xi =>
      let i := zi * count + xi
      [i, i + count, i + count + 1, i, i + count + 1, i + 1]))
  ⟨verts, norms, tris⟩

/-- Modelled from the spec: `MapMaterial` (`map_pipeline.rs`, not under
`src/`): per section 3 (GeneratedMaterial) and 4.5, a shader-parameter
bundle encoding the layer colors, height thresholds and blend widths for
GPU-side blending. -/
structure MapMaterial where
  layer_colors : List Color
  layer_heights : List ℝ
  blend_values : List ℝ

/-- Modelled from the spec: `MapMaterial::new(map_data)` (`map_pipeline.rs`,
not under `src/`): packages the map's material layer data. -/
def MapMaterial.new (d : MapData) : MapMaterial :=
  ⟨d.material_data.layer_colors, d.material_data.layer_heights, d.material_data.blend_values⟩

/-- `MapData::generate` (map_data.rs, lines 134-136):
`(MapShape::new(self).into(), MapMaterial::new(self))`. -/
noncomputable def MapData.generate (d : MapData) : Mesh × MapMaterial :=
  (MapShape.new d, MapMaterial.new d)

/-- State-passing form of the `&self` method call `map_data.generate()`: the
receiver is taken by shared reference and none of its field types has
interior mutability, so the post-state of the receiver is its pre-state,
returned here alongside the method's output. -/
noncomputable def MapData.generateFull (d : MapData) : MapData × (Mesh × MapMaterial) :=
  (d, d.generate)

/-- C1: for every HeightCurve with `water_level` in `[0,1)` and `slope >= 1`,
`evaluate` returns exactly 0 below `water_level`, and
`((input - water_level) / (1 - water_level)) ^ slope` at or above it. -/
theorem HeightCurve.evaluate_below_above (hc : HeightCurve)
    (hw0 : 0 ≤ hc.water_level) (hw1 : hc.water_level < 1) (hs : 1 ≤ hc.slope)
    (input : ℝ) :
    (input < hc.water_level → hc.evaluate input = 0) ∧
    (hc.water_level ≤ input →
      hc.evaluate input = ((input - hc.water_level) / (1 - hc.water_level)) ^ hc.slope) := by
  constructor
  · intro h
    unfold HeightCurve.evaluate
    rw [if_pos h]
  · intro h
    unfold HeightCurve.evaluate
    rw [if_neg (not_lt.2 h)]

/-- Witness for C1 at the default parameters. -/
theorem HeightCurve.evaluate_below_above_witness :
    HeightCurve.evaluate ⟨0.25, 1.5⟩ 0.1 = 0 ∧
    HeightCurve.evaluate ⟨0.25, 1.5⟩ 0.625 = ((0.625 - 0.25) / (1 - 0.25)) ^ (1.5 : ℝ) :=
  ⟨(HeightCurve.evaluate_below_above ⟨0.25, 1.5⟩ (by norm_num) (by norm_num) (by norm_num)
      0.1).1 (by norm_num),
   (HeightCurve.evaluate_below_above ⟨0.25, 1.5⟩ (by norm_num) (by norm_num) (by norm_num)
      0.625).2 (by norm_num)⟩

/-- C2 (evidence for the code bug): at `water_level = 1` the source has no
guard at all — any `input ≥ 1` falls into the `else` branch and divides by
`1 - 1 = 0`. In IEEE `f32` arithmetic the source returns
`powf(NaN, slope) = NaN` at `input = 1` and `powf(+inf, slope) = +inf` at
`input = 2`; in this real-valued model the junk value of the division is 0
and the result is 0. Under neither semantics does `evaluate` return the
claimed 1 for inputs `≥ 1`. -/
theorem HeightCurve.evaluate_waterlevel_one_unguarded :
    HeightCurve.evaluate ⟨1, 1.5⟩ 1 = 0 ∧ HeightCurve.evaluate ⟨1, 1.5⟩ 1 ≠ 1 ∧
    HeightCurve.evaluate ⟨1, 1.5⟩ 2 = 0 ∧ HeightCurve.evaluate ⟨1, 1.5⟩ 2 ≠ 1 := by
  have h1 : HeightCurve.evaluate ⟨1, 1.5⟩ 1 = 0 := by
    unfold HeightCurve.evaluate
    rw [if_neg (by norm_num)]
    norm_num
  have h2 : HeightCurve.evaluate ⟨1, 1.5⟩ 2 = 0 := by
    unfold HeightCurve.evaluate
    rw [if_neg (by norm_num)]
    norm_num
  exact ⟨h1, by rw [h1]; norm_num, h2, by rw [h2]; norm_num⟩

/-- C3: monotonicity of `HeightCurve::evaluate` for `water_level` in `[0,1]`
and `slope >= 1`, on inputs in `[0,1]`. -/
theorem HeightCurve.evaluate_monotone (hc : HeightCurve)
    (hw0 : 0 ≤ hc.water_level) (hw1 : hc.water_level ≤ 1) (hs : 1 ≤ hc.slope)
    (a b : ℝ) (ha0 : 0 ≤ a) (ha1 : a ≤ 1) (hb0 : 0 ≤ b) (hb1 : b ≤ 1)
    (hab : a ≤ b) : hc.evaluate a ≤ hc.evaluate b := by
  unfold HeightCurve.evaluate
  have hs0 : (0 : ℝ) ≤ hc.slope := le_trans zero_le_one hs
  by_cases hb : b < hc.water_level
  · rw [if_pos (lt_of_le_of_lt hab hb), if_pos hb]
  · push_neg at hb
    have hbase_b : 0 ≤ (b - hc.water_level) / (1 - hc.water_level) :=
      div_nonneg (by linarith) (by linarith)
    by_cases ha : a < hc.water_level
    · rw [if_pos ha, if_neg (not_lt.2 hb)]
      exact Real.rpow_nonneg hbase_b _
    · push_neg at ha
      rw [if_neg (not_lt.2 ha), if_neg (not_lt.2 hb)]
      have hbase_a : 0 ≤ (a - hc.water_level) / (1 - hc.water_level) :=
        div_nonneg (by linarith) (by linarith)
      have hbase_ab : (a - hc.water_level) / (1 - hc.water_level)
          ≤ (b - hc.water_level) / (1 - hc.water_level) := by
        rcases lt_or_eq_of_le hw1 with hlt | heq
        · rw [div_le_div_iff₀ (by linarith) (by linarith)]
          have := mul_le_mul_of_nonneg_right
            (show a - hc.water_level ≤ b - hc.water_level by linarith)
            (show (0 : ℝ) ≤ 1 - hc.water_level by linarith)
          linarith
        · rw [← heq]
          simp
      exact Real.rpow_le_rpow hbase_a hbase_ab hs0

/-- Witness for C3 at the default parameters, inputs 0.3 and 0.7. -/
theorem HeightCurve.evaluate_monotone_witness :
    HeightCurve.evaluate ⟨0.25, 1.5⟩ 0.3 ≤ HeightCurve.evaluate ⟨0.25, 1.5⟩ 0.7 :=
  HeightCurve.evaluate_monotone ⟨0.25, 1.5⟩ (by norm_num) (by norm_num) (by norm_num)
    0.3 0.7 (by norm_num) (by norm_num) (by norm_num) (by norm_num) (by norm_num)

/-- C4: for `water_level` in `[0,1)`, `slope >= 1` and inputs in `[0,1]`,
`evaluate` lands in `[0,1]`, and below `water_level` it is exactly 0. -/
theorem HeightCurve.evaluate_mem_unitInterval (hc : HeightCurve)
    (hw0 : 0 ≤ hc.water_level) (hw1 : hc.water_level < 1) (hs : 1 ≤ hc.slope)
    (input : ℝ) (hi0 : 0 ≤ input) (hi1 : input ≤ 1) :
    (0 ≤ hc.evaluate input ∧ hc.evaluate input ≤ 1) ∧
    (input < hc.water_level → hc.evaluate input = 0) := by
  unfold HeightCurve.evaluate
  constructor
  · by_cases hi : input < hc.water_level
    · rw [if_pos hi]
      norm_num
    · push_neg at hi
      rw [if_neg (not_lt.2 hi)]
      have hd : (0 : ℝ) < 1 - hc.water_level := by linarith
      have hbase0 : 0 ≤ (input - hc.water_level) / (1 - hc.water_level) :=
        div_nonneg (by linarith) hd.le
      have hbase1 : (input - hc.water_level) / (1 - hc.water_level) ≤ 1 := by
        rw [div_le_one hd]
        linarith
      exact ⟨Real.rpow_nonneg hbase0 _, Real.rpow_le_one hbase0 hbase1 (by linarith)⟩
  · intro hi
    rw [if_pos hi]

/-- Witness for C4 at the default parameters, input 0.5. -/
theorem HeightCurve.evaluate_mem_unitInterval_witness :
    (0 ≤ HeightCurve.evaluate ⟨0.25, 1.5⟩ 0.5 ∧ HeightCurve.evaluate ⟨0.25, 1.5⟩ 0.5 ≤ 1) ∧
    ((0.5 : ℝ) < 0.25 → HeightCurve.evaluate ⟨0.25, 1.5⟩ 0.5 = 0) :=
  HeightCurve.evaluate_mem_unitInterval ⟨0.25, 1.5⟩ (by norm_num) (by norm_num) (by norm_num)
    0.5 (by norm_num) (by norm_num)

/-- At the default parameters, `evaluate 0.625` is `0.5 ^ 1.5`. -/
lemma evaluate_default_at_0625 :
    HeightCurve.evaluate HeightCurve.default 0.625 = (0.5 : ℝ) ^ (1.5 : ℝ) := by
  unfold HeightCurve.evaluate HeightCurve.default
  rw [if_neg (by norm_num)]
  norm_num

/-- The square of `0.5 ^ 1.5` is `0.5 ^ 3 = 0.125`. -/
lemma rpow_half_threeHalves_sq : ((0.5 : ℝ) ^ (1.5 : ℝ)) ^ (2 : ℕ) = 0.125 := by
  rw [← Real.rpow_natCast ((0.5 : ℝ) ^ (1.5 : ℝ)) 2,
    ← Real.rpow_mul (by norm_num : (0 : ℝ) ≤ 0.5)]
  norm_num

/-- `0.5 ^ 1.5` lies between 0.35 and 0.36. -/
lemma rpow_half_threeHalves_bounds :
    0.35 ≤ (0.5 : ℝ) ^ (1.5 : ℝ) ∧ (0.5 : ℝ) ^ (1.5 : ℝ) ≤ 0.36 := by
  have h0 : (0 : ℝ) ≤ (0.5 : ℝ) ^ (1.5 : ℝ) := Real.rpow_nonneg (by norm_num) _
  have hsq := rpow_half_threeHalves_sq
  constructor
  · nlinarith [h0, hsq]
  · nlinarith [h0, hsq]

/-- C5 (counterexample): at the default parameters `evaluate 0.625` is
`0.5 ^ 1.5 ≈ 0.3536`, which differs from the claimed 0.433 by more than
0.07 — far beyond floating-point tolerance. -/
theorem HeightCurve.default_example_differs_from_claimed_value :
    0.07 < |HeightCurve.evaluate HeightCurve.default 0.625 - 0.433| := by
  rw [evaluate_default_at_0625]
  have hb := rpow_half_threeHalves_bounds
  rw [abs_of_neg (by linarith [hb.2] : (0.5 : ℝ) ^ (1.5 : ℝ) - 0.433 < 0)]
  linarith [hb.2]

/-- C5 (amended): with the defaults `water_level = 0.25`, `slope = 1.5`:
`evaluate 0.25 = 0`, `evaluate 1 = 1`, and
`evaluate 0.625 = ((0.625 - 0.25) / 0.75) ^ 1.5 = 0.5 ^ 1.5 ≈ 0.354`
(bounded here between 0.35 and 0.36), not 0.433. -/
theorem HeightCurve.default_examples :
    HeightCurve.evaluate HeightCurve.default 0.25 = 0 ∧
    HeightCurve.evaluate HeightCurve.default 1 = 1 ∧
    HeightCurve.evaluate HeightCurve.default 0.625
      = ((0.625 - 0.25) / (1 - 0.25)) ^ (1.5 : ℝ) ∧
    0.35 ≤ HeightCurve.evaluate HeightCurve.default 0.625 ∧
    HeightCurve.evaluate HeightCurve.default 0.625 ≤ 0.36 := by
  have hb := rpow_half_threeHalves_bounds
  refine ⟨?_, ?_, ?_, ?_, ?_⟩
  · unfold HeightCurve.evaluate HeightCurve.default
    rw [if_neg (by norm_num)]
    norm_num
  · unfold HeightCurve.evaluate HeightCurve.default
    rw [if_neg (by norm_num)]
    norm_num
  · unfold HeightCurve.evaluate HeightCurve.default
    rw [if_neg (by norm_num)]
  · rw [evaluate_default_at_0625]
    exact hb.1
  · rw [evaluate_default_at_0625]
    exact hb.2

/-- C6 (evidence for the code bug): `MaterialData` is a plain struct with
public fields and no validating constructor, so a value with
`len(layer_heights) != len(layer_colors) - 1` is constructed without any
failure, can be placed into a `MapData`, and `generate` runs on it and
emits the mismatched arrays into the material output. -/
theorem MaterialData.mismatch_not_rejected :
    ¬ badMaterialData.layersValid ∧
    badMaterialData.layer_heights.length ≠ badMaterialData.layer_colors.length - 1 ∧
    ({ MapData.default with material_data := badMaterialData }).material_data
      = badMaterialData ∧
    (MapData.generate { MapData.default with material_data := badMaterialData }).2.layer_heights
      = badMaterialData.layer_heights :=
  ⟨by decide, by decide, rfl, rfl⟩

/-- C7: determinism of `MapData::generate` — equal parameter values give
equal (mesh, material) output. -/
theorem MapData.generate_deterministic (d1 d2 : MapData) (h : d1 = d2) :
    d1.generate = d2.generate := by
  rw [h]

/-- Witness for C7 at the default map data. -/
theorem MapData.generate_deterministic_witness :
    MapData.default.generate = MapData.default.generate :=
  MapData.generate_deterministic MapData.default MapData.default rfl

/-- C8: the default-constructed parameter values of `NoiseData`,
`HeightCurve`, `MaterialData` and `MapData`. -/
theorem MapData.default_values :
    MapData.default.noise_data.seed = 0 ∧
    MapData.default.noise_data.scale = 40.0 ∧
    MapData.default.noise_data.octaves = 4 ∧
    MapData.default.noise_data.persistence = 0.5 ∧
    MapData.default.noise_data.lacunarity = 3.0 ∧
    MapData.default.height_curve.water_level = 0.25 ∧
    MapData.default.height_curve.slope = 1.5 ∧
    MapData.default.map_height = 10.0 ∧
    MapData.default.level_of_detail = 0 ∧
    MapData.default.wireframe = false ∧
    MapData.default.material_data.layer_colors.length = 5 ∧
    MapData.default.material_data.layer_heights = [0.2, 0.35, 0.5, 0.8] ∧
    MapData.default.material_data.blend_values = [0.05, 0.05, 0.1, 0.15] :=
  ⟨rfl, rfl, rfl, rfl, rfl, rfl, rfl, rfl, rfl, rfl, rfl, rfl, rfl⟩

/-- C9: the state-passing form of `generate` returns the receiver unchanged
alongside the (mesh, material) pair — the `&self` call cannot mutate the
`MapData`, and the output is exactly the constructed pair. -/
theorem MapData.generate_preserves_input (d : MapData) :
    (d.generateFull).1 = d ∧
    (d.generateFull).2 = (MapShape.new d, MapMaterial.new d) :=
  ⟨rfl, rfl⟩

/-- C10: `MapData::new()` returns exactly `MapData::default()`. -/
theorem MapData.new_eq_default : MapData.new = MapData.default := rfl
